import Mathlib

/-!
Verification development for the PyCANalyzer ingestion/dispatch pipeline
(`src/main_can_analyzer.py`).  The Python source is shallowly embedded:
pure computations become Lean functions, the mutable `MainWindow` /
`CanWorker` objects become explicit state records threaded through the
slot functions, and Python exceptions that the code does not catch are
modelled with `Option` (a `none` result marks an uncaught exception;
PyQt5 aborts the application on an unhandled exception inside a slot, so
no state after such an exception is ever observable).

GUI rendering (Qt widgets, pyqtgraph drawing), real time and the actual
python-can transport are external collaborators: the embedding records
what the code hands to them (table rows, status-bar messages with their
timeout argument, bus `send` invocations, console prints) as explicit
lists inside the state.
-/

set_option maxRecDepth 4000

namespace PyCANalyzer

/-! ## Python string primitives used by the source -/

/-- Embeds Python list/str prefix test: `listPrefixOf p l` is true when
`p` is an initial segment of `l`. -/
def listPrefixOf : List Char → List Char → Bool
  | [], _ => true
  | _ :: _, [] => false
  | a :: as, b :: bs => a == b && listPrefixOf as bs

/-- `listSub needle hay`: `needle` occurs as a contiguous run inside `hay`. -/
def listSub : List Char → List Char → Bool
  | needle, [] => listPrefixOf needle []
  | needle, c :: rest' =>
    listPrefixOf needle (c :: rest') || listSub needle rest'

/-- Embeds the Python substring test `needle in hay`. -/
def strContainsSub (hay needle : String) : Bool :=
  listSub needle.data hay.data

/-- Embeds Python `hay.startswith(p)`. -/
def strStartsWith (hay p : String) : Bool :=
  listPrefixOf p.data hay.data

/-- Embeds Python `s.replace(" ", "")` (removal of every space). -/
def removeSpaces (s : String) : String :=
  String.mk (s.data.filter (fun c => c ≠ ' '))

/-! ## Hex formatting (`f"{n:X}"`, `bytes.hex()`, `bytes.hex(' ')`, `.upper()`) -/

/-- Upper-case hex digit for `n < 16` (as produced by `%X` / `.upper()`). -/
def hexDigitU (n : Nat) : Char :=
  if n < 10 then Char.ofNat (48 + n) else Char.ofNat (55 + n)

/-- Fuelled digit accumulator behind `pyHexUpper`; the fuel `n+1` always
suffices, so this computes the base-16 digits of `n`, most significant
first. -/
def pyHexCore : Nat → Nat → List Char → List Char
  | 0, _, acc => acc
  | fuel + 1, n, acc =>
    let acc' := hexDigitU (n % 16) :: acc
    if n / 16 = 0 then acc' else pyHexCore fuel (n / 16) acc'

/-- Embeds the Python format `f"{n:X}"`: upper-case hex, no padding,
`"0"` for zero. -/
def pyHexUpper (n : Nat) : String :=
  String.mk (pyHexCore (n + 1) n [])

/-- The two upper-case hex digits of one byte (`bytes.hex()` yields two
lower-case digits per byte; the source applies `.upper()`). -/
def byteHexChars (b : Nat) : List Char :=
  [hexDigitU (b / 16 % 16), hexDigitU (b % 16)]

/-- Embeds `msg.data.hex().upper()`: contiguous upper-case hex. -/
def bytesHexU (bs : List Nat) : String :=
  String.mk (bs.map byteHexChars).flatten

/-- Single-space join of character groups, as done by `bytes.hex(' ')`. -/
def sepJoin : List (List Char) → List Char
  | [] => []
  | [g] => g
  | g :: gs => g ++ (' ' :: sepJoin gs)

/-- Embeds `msg.data.hex(' ').upper()`: byte pairs separated by one space. -/
def bytesHexSepU (bs : List Nat) : String :=
  String.mk (sepJoin (bs.map byteHexChars))

/-- The upper-case hex alphabet. -/
def upperHexChars : List Char :=
  ['0', '1', '2', '3', '4', '5', '6', '7', '8', '9', 'A', 'B', 'C', 'D', 'E', 'F']

/-- Every character of `s` is an upper-case hex digit. -/
def isUpperHexStr (s : String) : Bool :=
  s.data.all (fun c => c ∈ upperHexChars)

/-! ## Data model: `can.Message` (the spec's Frame) -/

/-- Embeds the python-can `Message` value consumed by the pipeline.
`data` is the byte sequence; `timestamp_repr` holds the already formatted
`f"{msg.timestamp:.6f}"` string (float formatting is outside the
embedding and no claim depends on it); `channel` is `None` or a string,
as in python-can. -/
structure CanMsg where
  arbitration_id : Nat
  is_extended_id : Bool
  is_remote_frame : Bool
  is_error_frame : Bool
  is_fd : Bool
  bitrate_switch : Bool
  dlc : Nat
  data : List Nat
  timestamp_repr : String
  channel : Option String
deriving DecidableEq, Repr

/-- `MAX_PLOT_POINTS` from the source (line 28). -/
def MAX_PLOT_POINTS : Nat := 200

/-- The hard-coded plot subscription `target_id = 0x18FF03EF`
(`handle_message`, line 482). -/
def PLOT_TARGET_ID : Nat := 0x18FF03EF

/-- `msg_type` classification computed by `handle_message`
(lines 431-442). -/
def msgTypeStr (m : CanMsg) : String :=
  if m.is_remote_frame then "Remote"
  else if m.is_error_frame then "Error"
  else if m.is_fd then "FD " ++ (if m.bitrate_switch then "BRS " else "")
  else "Data"

/-- `data_str` computed by `handle_message` (lines 431-442). -/
def dataStr (m : CanMsg) : String :=
  if m.is_remote_frame then "N/A"
  else if m.is_error_frame then "Error Data: " ++ bytesHexU m.data
  else if m.is_fd then bytesHexSepU m.data
  else bytesHexSepU m.data

/-- `id_str` computed by `handle_message` (lines 425-429). -/
def idStr (m : CanMsg) : String :=
  pyHexUpper m.arbitration_id ++ (if m.is_extended_id then " (Ext)" else " (Std)")

/-- `channel_info` (line 445): the message's channel when truthy,
otherwise the configured channel. -/
def channelInfo (m : CanMsg) (defaultChannel : String) : String :=
  match m.channel with
  | some c => if c = "" then defaultChannel else c
  | none => defaultChannel

/-- The row inserted into `receive_table` (lines 448-457). -/
def displayRow (counter : Nat) (defaultChannel : String) (m : CanMsg) : List String :=
  [ m.timestamp_repr, idStr m, msgTypeStr m, toString m.dlc, dataStr m,
    toString counter, channelInfo m defaultChannel ]

/-- The CSV row written by the logging branch of `handle_message`
(lines 463-474); integer cells are rendered as decimal strings, exactly
as the csv module serialises them. -/
def logRow (counter : Nat) (defaultChannel : String) (m : CanMsg) : List String :=
  [ m.timestamp_repr, pyHexUpper m.arbitration_id,
    if m.is_extended_id then "E" else "S",
    msgTypeStr m, toString m.dlc, removeSpaces (dataStr m),
    toString counter, channelInfo m defaultChannel ]

/-- The fixed CSV header row written by `start_logging` (lines 584-586). -/
def logHeader : List String :=
  ["Timestamp", "ID (Hex)", "ID Type", "Msg Type", "DLC", "Data (Hex)", "Count", "Bus"]

/-! ## `CanWorker`: the ingestion worker (lines 31-96) -/

/-- The Bus Adapter handle owned by the worker; `send_calls` records every
invocation of the adapter's `send` operation, in order. -/
structure BusHandle where
  send_calls : List CanMsg
deriving DecidableEq, Repr

/-- Mutable state of a `CanWorker`: the `_is_running` stop flag and the
`_bus` handle (`none` while no bus is open). -/
structure WorkerState where
  is_running : Bool
  bus : Option BusHandle
deriving DecidableEq, Repr

/-- Embeds `CanWorker.send_message` (lines 86-96).  `sendErr = some e`
models `self._bus.send(msg)` raising `can.CanError(e)`.  Returns the new
worker state, the Python return value, and the `error_occurred` signals
emitted.  When the guard `self._bus and self._is_running` fails the
method returns `False` without touching the adapter. -/
def CanWorker.send_message (w : WorkerState) (m : CanMsg) (sendErr : Option String) :
    WorkerState × Bool × List String :=
  match w.bus with
  | some b =>
    if w.is_running then
      let b' : BusHandle := { send_calls := b.send_calls ++ [m] }
      match sendErr with
      | some e => ({ w with bus := some b' }, false, ["Send Error: " ++ e])
      | none => ({ w with bus := some b' }, true, [])
    else (w, false, [])
  | none => (w, false, [])

/-- The ways `CanWorker.run` (lines 43-73) leaves its `try` block:
the cooperative stop flag was observed cleared, `can.interface.Bus(...)`
raised `can.CanError`, a later read/notifier `can.CanError` surfaced, or
any other exception occurred. -/
inductive RunExit
  | normalStop
  | openError (e : String)
  | readError (e : String)
  | otherError (e : String)
deriving DecidableEq, Repr

/-- Observable outcome of one execution of `CanWorker.run`. -/
structure RunResult where
  bus_acquired : Bool
  shutdown_called : Bool
  notifier_stopped : Bool
  errors_emitted : List String
  is_running_after : Bool
deriving DecidableEq, Repr

/-- Embeds `CanWorker.run` (lines 43-73).  The `try` body acquires the
bus unless the open itself raised; the `except` arms emit the
corresponding `error_occurred` signal; the `finally` block (lines 64-73)
runs on every exit path: the `hasattr(self, 'notifier')` test is always
false because `notifier` is a local variable, so `notifier.stop()` is
never invoked, and `self._bus.shutdown()` is invoked exactly when a bus
handle was acquired. -/
def CanWorker.run (exit : RunExit) : RunResult :=
  let bus_acquired :=
    match exit with
    | .openError _ => false
    | _ => true
  let errors :=
    match exit with
    | .normalStop => []
    | .openError e => ["CAN Error: " ++ e]
    | .readError e => ["CAN Error: " ++ e]
    | .otherError e => ["Error: " ++ e]
  { bus_acquired := bus_acquired
    shutdown_called := bus_acquired
    notifier_stopped := false
    errors_emitted := errors
    is_running_after := false }

/-! ## `MainWindow` state -/

/-- Mutable state of the `MainWindow` object plus the observable
surfaces it writes to.  `status_log` records every
`status_bar.showMessage(text, timeout)` call (timeout `0` = no timeout,
Qt semantics); `console_log` records `print` calls; `table` the rows
handed to `receive_table`; `disk` the rows of the current log file as
they exist on disk (the file content survives `close`); `log_open`
whether `self.log_file` holds an open handle; `plot_x` / `plot_y` the
two per-id dictionaries (`none` = key absent). -/
structure AppState where
  is_connected : Bool
  has_worker : Bool
  has_thread : Bool
  worker_running : Bool
  thread_running : Bool
  timer_active : Bool
  is_logging : Bool
  has_writer : Bool
  log_open : Bool
  disk : List (List String)
  message_counter : Nat
  plot_x : Nat → Option (List Nat)
  plot_y : Nat → Option (List Nat)
  settings_interface : String
  settings_channel : String
  settings_bitrate : Nat
  log_path : String
  table : List (List String)
  status_log : List (String × Nat)
  console_log : List String

/-- Append one `showMessage(text, timeout)` call. -/
def pushStatus (st : AppState) (text : String) (timeout : Nat) : AppState :=
  { st with status_log := st.status_log ++ [(text, timeout)] }

/-- Append one `print` call. -/
def pushConsole (st : AppState) (text : String) : AppState :=
  { st with console_log := st.console_log ++ [text] }

/-- The message currently on the status bar: the last one shown
(real-time expiry of timeouts is outside the embedding). -/
def currentMessage (st : AppState) : String :=
  (st.status_log.getLast?).elim "" Prod.fst

/-- `MainWindow.__init__` + `_init_ui` (lines 146-285) on Linux defaults:
no connection, no logging, counter zero, empty plot dictionaries, and
the initial `showMessage("Disconnected")`. -/
def initState : AppState :=
  { is_connected := false
    has_worker := false
    has_thread := false
    worker_running := false
    thread_running := false
    timer_active := false
    is_logging := false
    has_writer := false
    log_open := false
    disk := []
    message_counter := 0
    plot_x := fun _ => none
    plot_y := fun _ => none
    settings_interface := "socketcan"
    settings_channel := "can0"
    settings_bitrate := 500000
    log_path := ""
    table := []
    status_log := [("Disconnected", 0)]
    console_log := [] }

/-! ## `MainWindow` slots (connection lifecycle, logging, routing) -/

/-- Embeds `MainWindow.update_connection_status` (lines 387-399): when
connected it shows the `Connected to ... kbps` status message; when not
connected it only toggles widget enablement (the `else` branch is
commented out in the source), which the embedding does not track. -/
def update_connection_status (st : AppState) : AppState :=
  if st.is_connected then
    pushStatus st ("Connected to " ++ st.settings_channel ++ " @ " ++
                   toString (st.settings_bitrate / 1000) ++ " kbps") 0
  else st

/-- Embeds `MainWindow.connect_can` (lines 310-337): a fresh worker and
thread are created and started, the state optimistically flips to
connected, and the plot-update timer starts. -/
def connect_can (st : AppState) : AppState :=
  if st.is_connected then st
  else
    let st := { st with has_worker := true, has_thread := true,
                        worker_running := true, thread_running := true }
    let st := { st with is_connected := true }
    let st := update_connection_status st
    let st := pushStatus st ("Connecting to " ++ st.settings_interface ++ ":" ++
                             st.settings_channel ++ " @ " ++
                             toString st.settings_bitrate ++ " bps...") 0
    { st with timer_active := true }

/-- Embeds `MainWindow.stop_logging` (lines 600-622): clears the logging
flag, closes the file handle when present (the on-disk rows survive),
drops the writer, and restores the status message. -/
def stop_logging (st : AppState) : AppState :=
  if !st.is_logging then st
  else
    let st := { st with is_logging := false }
    let st :=
      if st.log_open then
        let st := { st with log_open := false }
        let st := pushConsole st ("Logging stopped: " ++ st.log_path)
        pushStatus st ("Logging stopped: " ++ st.log_path) 0
      else st
    let st := { st with has_writer := false }
    if st.is_connected then update_connection_status st
    else if !(strStartsWith (currentMessage st) "Error") then
      pushStatus st "Disconnected" 0
    else st

/-- How an attempt to start logging can go: the save dialog was
cancelled, `open(file_path, 'w')` raised, writing the header row raised,
or everything succeeded. -/
inductive StartLogOutcome
  | noFileChosen
  | openFails
  | headerWriteFails
  | ok
deriving DecidableEq, Repr

/-- Embeds `MainWindow.start_logging` (lines 566-598).  On `openFails`
the handle was never assigned, so the `except` arm only resets the
fields; on `headerWriteFails` the file was already created and truncated
(`disk := []`) before the write raised, and the `except` arm closes it
and resets the fields; on `ok` the header row is on disk, the writer is
retained and logging becomes active. -/
def start_logging (st : AppState) (path : String) (o : StartLogOutcome) : AppState :=
  if st.is_logging then st
  else
    match o with
    | .noFileChosen => st
    | .openFails =>
      { st with log_open := false, has_writer := false, is_logging := false }
    | .headerWriteFails =>
      { st with disk := [], log_open := false, has_writer := false, is_logging := false }
    | .ok =>
      let st := { st with disk := [logHeader], log_open := true,
                          has_writer := true, is_logging := true, log_path := path }
      let st := pushStatus st ("Logging started: " ++ path) 0
      pushConsole st ("Logging started to: " ++ path)

/-- Embeds `MainWindow.disconnect_can` (lines 340-369).  `graceful`
tells whether `can_thread.wait(2000)` succeeded; when it does not, the
thread is terminated and the source only prints a warning (nothing
reaches the status bar).  Either way the thread is no longer running
afterwards; `is_connected` is deliberately left for
`on_thread_finished` (see the source comment at line 363). -/
def disconnect_can (st : AppState) (graceful : Bool) : AppState :=
  if !st.is_connected || !st.has_thread || !st.thread_running then
    let st := pushConsole st "Not connected or thread not running."
    let st := { st with is_connected := false }
    let st := update_connection_status st
    let st := pushStatus st "Disconnected" 0
    { st with timer_active := false }
  else
    let st := pushConsole st "Requesting CAN worker stop..."
    let st :=
      if st.has_worker then
        let st := pushConsole st "Stopping CAN worker..."
        { st with worker_running := false }
      else st
    let st := { st with thread_running := false }
    let st :=
      if graceful then st
      else pushConsole st "Warning: CAN thread did not finish gracefully. Terminating."
    let st := pushStatus st "Disconnecting..." 0
    let st := stop_logging st
    { st with timer_active := false }

/-- Embeds `MainWindow.on_thread_finished` (lines 371-384), the slot Qt
invokes once the worker thread has finished. -/
def on_thread_finished (st : AppState) : AppState :=
  let st := pushConsole st "CAN thread finished."
  let st := { st with is_connected := false, has_worker := false, has_thread := false }
  let st := update_connection_status st
  let st := pushStatus st "Disconnected" 0
  { st with timer_active := false }

/-- Delivery of the pending `QThread.finished` signal: once the thread
has stopped running, Qt invokes `on_thread_finished`. -/
def settleThreadFinish (st : AppState) : AppState :=
  if st.has_thread && !st.thread_running then on_thread_finished st else st

/-- Embeds `MainWindow.handle_can_error` (lines 503-511): every error is
shown on the status bar for 5000 ms; when the message contains one of
the two device-absent markers, `disconnect_can` is auto-invoked. -/
def handle_can_error (st : AppState) (error_message : String) (graceful : Bool) : AppState :=
  let st := pushConsole st ("CAN Error reported: " ++ error_message)
  let st := pushStatus st ("Error: " ++ error_message) 5000
  if strContainsSub error_message "No such device" ||
     strContainsSub error_message "Cannot find specified device" then
    let st := pushConsole st "Device not found error, attempting auto-disconnect."
    disconnect_can st graceful
  else st

/-! ## `MainWindow.handle_message`: the message router (lines 418-501) -/

/-- The plot-update guard of `handle_message` (line 483):
`msg.arbitration_id == target_id and not msg.is_remote_frame and msg.dlc > 0`. -/
def plotCond (m : CanMsg) : Bool :=
  (m.arbitration_id == PLOT_TARGET_ID) && (!m.is_remote_frame) && (decide (0 < m.dlc))

/-- Lines 492-498: append `(counter, byte)` to the two plot lists, then
pop the front of both when the x-list got longer than
`MAX_PLOT_POINTS`. -/
def plotPush (xs ys : List Nat) (c b : Nat) : List Nat × List Nat :=
  let xs' := xs ++ [c]
  let ys' := ys ++ [b]
  if MAX_PLOT_POINTS < xs'.length then (xs'.tail, ys'.tail) else (xs', ys')

/-- Embeds `MainWindow.handle_message` (lines 418-501): increment the
sequence counter, insert the display row, write the CSV row when logging
is active and a writer is retained, and run the plot update when
`plotCond` holds (creating the per-id lists on first sight, as the
source does on lines 484-489).  `msg.data[0]` on an empty byte sequence
raises `IndexError`, which no caller catches; that path is `none` (the
application aborts, so its intermediate state is never observed).  The
embedding models the CSV write as succeeding; a failing write only
reports an error and is outside the claims treated here. -/
def handle_message (st : AppState) (m : CanMsg) : Option AppState :=
  let counter := st.message_counter + 1
  let st1 : AppState :=
    { st with message_counter := counter,
              table := st.table ++ [displayRow counter st.settings_channel m] }
  let st2 : AppState :=
    { st1 with disk := if st1.is_logging && st1.has_writer
                       then st1.disk ++ [logRow counter st1.settings_channel m]
                       else st1.disk }
  if plotCond m then
    match m.data with
    | [] => none
    | b :: _ =>
      let xs := (st2.plot_x PLOT_TARGET_ID).getD []
      let ys := (st2.plot_y PLOT_TARGET_ID).getD []
      let p := plotPush xs ys counter b
      some { st2 with
              plot_x := Function.update st2.plot_x PLOT_TARGET_ID (some p.1),
              plot_y := Function.update st2.plot_y PLOT_TARGET_ID (some p.2) }
  else some st2

/-- Consume a list of frames with `handle_message`, stopping at the
first uncaught exception. -/
def processAll (st : AppState) : List CanMsg → Option AppState
  | [] => some st
  | m :: ms =>
    match handle_message st m with
    | none => none
    | some st' => processAll st' ms

/-! ## `MainWindow.prepare_send_message` (lines 514-562) -/

/-- Observable outcome of `prepare_send_message`: the not-connected
warning dialog, the invalid-input dialog, or the `send_request` signal
carrying exactly one message. -/
inductive PrepareResult
  | notConnectedWarning
  | parseError (e : String)
  | emitted (m : CanMsg)
deriving DecidableEq, Repr

/-- Embeds `MainWindow.prepare_send_message`: when not connected it
shows the "Not Connected" warning and emits nothing; otherwise the GUI
text fields are parsed (hex parsing and the 8-byte bound are abstracted
into the `parsed` argument: `Except.error` models `ValueError`) and on
success exactly one `send_request` is emitted. -/
def prepare_send_message (st : AppState) (parsed : Except String CanMsg) : PrepareResult :=
  if !st.is_connected then .notConnectedWarning
  else
    match parsed with
    | .error e => .parseError e
    | .ok m => .emitted m

/-! ## Whole-application event loop (for cross-session properties) -/

/-- The consumer-context events that mutate `MainWindow` state. -/
inductive AppEvent
  | frame (m : CanMsg)
  | doConnect
  | doDisconnect (graceful : Bool)
  | threadFinished
  | canError (e : String) (graceful : Bool)
  | logStart (path : String) (o : StartLogOutcome)
  | logStop

/-- One consumer-context event dispatch. -/
def appStep (st : AppState) : AppEvent → Option AppState
  | .frame m => handle_message st m
  | .doConnect => some (connect_can st)
  | .doDisconnect g => some (disconnect_can st g)
  | .threadFinished => some (on_thread_finished st)
  | .canError e g => some (handle_can_error st e g)
  | .logStart p o => some (start_logging st p o)
  | .logStop => some (stop_logging st)

/-- Run a sequence of events from a state. -/
def runEvents (st : AppState) : List AppEvent → Option AppState
  | [] => some st
  | e :: es =>
    match appStep st e with
    | none => none
    | some st' => runEvents st' es

/-- Number of frame events in a sequence. -/
def countFrames : List AppEvent → Nat
  | [] => 0
  | .frame _ :: es => countFrames es + 1
  | _ :: es => countFrames es

/-! ## Specification-side derived functions -/

/-- The last `n` elements of a list. -/
def lastN (n : Nat) (l : List α) : List α :=
  l.drop (l.length - n)

/-- The `(sequence_counter, first data byte)` samples that a frame
sequence contributes to the plot series of `PLOT_TARGET_ID`, threading
the session counter from `c`. -/
def targetSamples (c : Nat) : List CanMsg → List (Nat × Nat)
  | [] => []
  | m :: ms =>
    if plotCond m then (c + 1, m.data.headD 0) :: targetSamples (c + 1) ms
    else targetSamples (c + 1) ms

/-- The CSV rows that a frame sequence contributes while logging is
active, threading the session counter from `c`. -/
def logRowsFrom (c : Nat) (ch : String) : List CanMsg → List (List String)
  | [] => []
  | m :: ms => logRow (c + 1) ch m :: logRowsFrom (c + 1) ch ms

/-- Abstract evolution of the pair of plot lists under a sample
sequence. -/
def pairFold : List Nat × List Nat → List (Nat × Nat) → List Nat × List Nat
  | p, [] => p
  | (xs, ys), q :: qs => pairFold (plotPush xs ys q.1 q.2) qs

/-! ## Concrete frames and states used by witnesses and counterexamples -/

/-- An ordinary classic data frame on the plotted identifier. -/
def mDataFrame : CanMsg :=
  { arbitration_id := 0x18FF03EF, is_extended_id := true, is_remote_frame := false,
    is_error_frame := false, is_fd := false, bitrate_switch := false, dlc := 2,
    data := [5, 7], timestamp_repr := "1.000000", channel := some "can0" }

/-- An error frame (not a data frame) carrying one byte on the plotted
identifier. -/
def mErrPlotFrame : CanMsg :=
  { arbitration_id := 0x18FF03EF, is_extended_id := true, is_remote_frame := false,
    is_error_frame := true, is_fd := false, bitrate_switch := false, dlc := 1,
    data := [5], timestamp_repr := "2.000000", channel := some "can0" }

/-- A remote frame (no data). -/
def mRemoteFrame : CanMsg :=
  { arbitration_id := 0x123, is_extended_id := false, is_remote_frame := true,
    is_error_frame := false, is_fd := false, bitrate_switch := false, dlc := 0,
    data := [], timestamp_repr := "3.000000", channel := some "can0" }

/-- An error frame carrying one byte `0xAB` (for the log-format claim). -/
def mErrLogFrame : CanMsg :=
  { arbitration_id := 0x7, is_extended_id := false, is_remote_frame := false,
    is_error_frame := true, is_fd := false, bitrate_switch := false, dlc := 1,
    data := [0xAB], timestamp_repr := "4.000000", channel := none }

/-- State right after `connect_can` from a fresh window. -/
def connSt : AppState := connect_can initState

/-- A worker that is not running with no open bus (the Disconnected
worker state). -/
def wDisc : WorkerState := { is_running := false, bus := none }

/-- A running worker with an open bus that has not yet sent anything. -/
def wConn : WorkerState := { is_running := true, bus := some { send_calls := [] } }

/-- Result of routing one data frame from the fresh window (used to
instantiate the plot-bound theorem). -/
def c1WitState : AppState := (processAll initState [mDataFrame]).getD initState

/-- Result of routing two frames after a successful `start_logging`
(used to instantiate the log-content theorem). -/
def c4WitState : AppState :=
  (processAll (start_logging initState "run.csv" .ok) [mDataFrame, mRemoteFrame]).getD initState

/-- A two-session event run: connect, one frame, disconnect, thread
finish, reconnect, one more frame. -/
def c10WitEvents : List AppEvent :=
  [.doConnect, .frame mDataFrame, .doDisconnect true, .threadFinished,
   .doConnect, .frame mErrPlotFrame]

/-- Final state of `c10WitEvents` (used to instantiate the counter
theorem). -/
def c10WitState : AppState := (runEvents initState c10WitEvents).getD initState

/-- Final state of one routed frame from `connSt` (used to instantiate
the routing-order theorem). -/
def c5WitState : AppState := (handle_message connSt mDataFrame).getD initState

/-! ## Pure lemmas: `lastN`, zipping, the plot step -/

theorem lastN_of_le {α : Type} {l : List α} {n : Nat} (h : l.length ≤ n) :
    lastN n l = l := by
  unfold lastN
  rw [Nat.sub_eq_zero_of_le h]
  exact List.drop_zero l

theorem lastN_cons_of_ge {α : Type} {l : List α} {n : Nat} (a : α) (h : n ≤ l.length) :
    lastN n (a :: l) = lastN n l := by
  unfold lastN
  have hlen : (a :: l).length - n = (l.length - n) + 1 := by
    simp only [List.length_cons]
    omega
  rw [hlen]
  rfl

theorem lastN_length_le {α : Type} (n : Nat) (l : List α) : (lastN n l).length ≤ n := by
  unfold lastN
  rw [List.length_drop]
  omega

theorem zip_drop_eq {α β : Type} : ∀ (k : Nat) (as : List α) (bs : List β),
    (as.drop k).zip (bs.drop k) = (as.zip bs).drop k
  | 0, _, _ => rfl
  | _ + 1, [], _ => by simp
  | _ + 1, _ :: _, [] => by simp
  | k + 1, _ :: as, _ :: bs => by simpa using zip_drop_eq k as bs

theorem lastN_zip {α β : Type} {as : List α} {bs : List β}
    (h : as.length = bs.length) (n : Nat) :
    (lastN n as).zip (lastN n bs) = lastN n (as.zip bs) := by
  unfold lastN
  rw [List.length_zip, ← h, Nat.min_self, zip_drop_eq]

theorem zip_map_fst_snd_eq {α β : Type} : ∀ (l : List (α × β)),
    (l.map Prod.fst).zip (l.map Prod.snd) = l
  | [] => rfl
  | _ :: l => by simpa using zip_map_fst_snd_eq l

theorem pairFold_char : ∀ (qs : List (Nat × Nat)) (xs ys : List Nat),
    xs.length = ys.length → xs.length ≤ MAX_PLOT_POINTS →
    pairFold (xs, ys) qs =
      (lastN MAX_PLOT_POINTS (xs ++ qs.map Prod.fst),
       lastN MAX_PLOT_POINTS (ys ++ qs.map Prod.snd))
  | [], xs, ys, hlen, hle => by
    have hys : ys.length ≤ MAX_PLOT_POINTS := by omega
    simp [pairFold, lastN_of_le hle, lastN_of_le hys]
  | q :: qs, xs, ys, hlen, hle => by
    rw [show pairFold (xs, ys) (q :: qs) = pairFold (plotPush xs ys q.1 q.2) qs from rfl]
    by_cases hcap : MAX_PLOT_POINTS < (xs ++ [q.1]).length
    · have hxs : xs.length = MAX_PLOT_POINTS := by
        simp only [List.length_append, List.length_cons, List.length_nil] at hcap
        omega
      have hpos : 0 < xs.length := by rw [hxs]; norm_num [MAX_PLOT_POINTS]
      have hpos2 : 0 < ys.length := by omega
      obtain ⟨x0, xs0, rfl⟩ : ∃ x0 xs0, xs = x0 :: xs0 := by
        cases xs with
        | nil => simp at hpos
        | cons a b => exact ⟨a, b, rfl⟩
      obtain ⟨y0, ys0, rfl⟩ : ∃ y0 ys0, ys = y0 :: ys0 := by
        cases ys with
        | nil => simp at hpos2
        | cons a b => exact ⟨a, b, rfl⟩
      have hstep : plotPush (x0 :: xs0) (y0 :: ys0) q.1 q.2 =
          (xs0 ++ [q.1], ys0 ++ [q.2]) := by
        simp only [plotPush]
        rw [if_pos (by simpa using hcap)]
        simp
      rw [hstep]
      have hlen2 : (xs0 ++ [q.1]).length = (ys0 ++ [q.2]).length := by
        simp only [List.length_append, List.length_cons, List.length_nil]
        simp only [List.length_cons] at hlen
        omega
      have hle2 : (xs0 ++ [q.1]).length ≤ MAX_PLOT_POINTS := by
        simp only [List.length_append, List.length_cons, List.length_nil]
        simp only [List.length_cons] at hxs
        omega
      rw [pairFold_char qs _ _ hlen2 hle2]
      have hxcons : (x0 :: xs0) ++ (q :: qs).map Prod.fst =
          x0 :: (xs0 ++ [q.1] ++ qs.map Prod.fst) := by simp
      have hycons : (y0 :: ys0) ++ (q :: qs).map Prod.snd =
          y0 :: (ys0 ++ [q.2] ++ qs.map Prod.snd) := by simp
      rw [hxcons, hycons, lastN_cons_of_ge, lastN_cons_of_ge]
      · simp only [List.length_cons] at hlen hxs
        simp only [List.length_append, List.length_cons, List.length_nil]
        omega
      · simp only [List.length_cons] at hxs
        simp only [List.length_append, List.length_cons, List.length_nil]
        omega
    · have hstep : plotPush xs ys q.1 q.2 = (xs ++ [q.1], ys ++ [q.2]) := by
        simp only [plotPush]
        rw [if_neg hcap]
      rw [hstep]
      have hlen2 : (xs ++ [q.1]).length = (ys ++ [q.2]).length := by
        simp only [List.length_append, List.length_cons, List.length_nil]
        omega
      have hle2 : (xs ++ [q.1]).length ≤ MAX_PLOT_POINTS := by
        simp only [List.length_append, List.length_cons, List.length_nil] at hcap ⊢
        omega
      rw [pairFold_char qs _ _ hlen2 hle2]
      simp

theorem targetSamples_mem_gt : ∀ (ms : List CanMsg) (c : Nat) (q : Nat × Nat),
    q ∈ targetSamples c ms → c < q.1
  | [], c, q, h => by simp [targetSamples] at h
  | m :: ms, c, q, h => by
    rw [targetSamples] at h
    by_cases hp : plotCond m
    · rw [if_pos hp] at h
      rcases List.mem_cons.mp h with h1 | h2
      · subst h1; simp
      · have := targetSamples_mem_gt ms (c + 1) q h2
        omega
    · rw [if_neg hp] at h
      have := targetSamples_mem_gt ms (c + 1) q h
      omega

theorem targetSamples_head_not_mem : ∀ (ms : List CanMsg) (c : Nat) (p : Nat × Nat)
    (ps : List (Nat × Nat)), targetSamples c ms = p :: ps → p ∉ ps
  | [], _, _, _, h => by simp [targetSamples] at h
  | m :: ms, c, p, ps, h => by
    rw [targetSamples] at h
    by_cases hp : plotCond m
    · rw [if_pos hp] at h
      injection h with h1 h2
      subst h1
      subst h2
      intro hmem
      have h3 := targetSamples_mem_gt ms (c + 1) _ hmem
      simp at h3
    · rw [if_neg hp] at h
      exact targetSamples_head_not_mem ms (c + 1) p ps h

theorem logRowsFrom_length : ∀ (ms : List CanMsg) (c : Nat) (ch : String),
    (logRowsFrom c ch ms).length = ms.length
  | [], _, _ => rfl
  | m :: ms, c, ch => by simp [logRowsFrom, logRowsFrom_length ms]

/-! ## Lemmas about hex formatting and space removal -/

theorem hexDigitU_mem {n : Nat} (h : n < 16) : hexDigitU n ∈ upperHexChars := by
  interval_cases n <;> decide

theorem pyHexCore_mem : ∀ (fuel n : Nat) (acc : List Char),
    (∀ c ∈ acc, c ∈ upperHexChars) → ∀ c ∈ pyHexCore fuel n acc, c ∈ upperHexChars
  | 0, _, _, hacc => hacc
  | fuel + 1, n, acc, hacc => by
    rw [pyHexCore]
    have hmem : hexDigitU (n % 16) ∈ upperHexChars :=
      hexDigitU_mem (Nat.mod_lt _ (by norm_num))
    have hacc2 : ∀ c ∈ hexDigitU (n % 16) :: acc, c ∈ upperHexChars := by
      intro c hc
      rcases List.mem_cons.mp hc with rfl | hc
      · exact hmem
      · exact hacc c hc
    by_cases h0 : n / 16 = 0
    · simpa [h0] using hacc2
    · simpa [h0] using pyHexCore_mem fuel (n / 16) _ hacc2

theorem pyHexUpper_mem (n : Nat) : ∀ c ∈ (pyHexUpper n).data, c ∈ upperHexChars := by
  intro c hc
  exact pyHexCore_mem (n + 1) n [] (by simp) c hc

theorem pyHexUpper_upper (n : Nat) : isUpperHexStr (pyHexUpper n) = true := by
  unfold isUpperHexStr
  rw [List.all_eq_true]
  intro c hc
  simpa using pyHexUpper_mem n c hc

theorem byteHexChars_mem (b : Nat) : ∀ c ∈ byteHexChars b, c ∈ upperHexChars := by
  intro c hc
  simp only [byteHexChars, List.mem_cons, List.not_mem_nil, or_false] at hc
  rcases hc with rfl | rfl
  · exact hexDigitU_mem (Nat.mod_lt _ (by norm_num))
  · exact hexDigitU_mem (Nat.mod_lt _ (by norm_num))

theorem bytesHexU_mem (bs : List Nat) : ∀ c ∈ (bytesHexU bs).data, c ∈ upperHexChars := by
  intro c hc
  simp only [bytesHexU, List.mem_flatten, List.mem_map] at hc
  obtain ⟨g, ⟨b, _, rfl⟩, hcg⟩ := hc
  exact byteHexChars_mem b c hcg

theorem bytesHexU_upper (bs : List Nat) : isUpperHexStr (bytesHexU bs) = true := by
  unfold isUpperHexStr
  rw [List.all_eq_true]
  intro c hc
  simpa using bytesHexU_mem bs c hc

theorem mem_upperHex_ne_space {c : Char} (h : c ∈ upperHexChars) : c ≠ ' ' := by
  fin_cases h <;> decide

theorem filter_nospace_eq_self {l : List Char} (h : ∀ c ∈ l, c ≠ ' ') :
    l.filter (fun c => c ≠ ' ') = l := by
  rw [List.filter_eq_self]
  intro c hc
  simpa using h c hc

theorem sepJoin_filter : ∀ (gs : List (List Char)),
    (∀ g ∈ gs, ∀ c ∈ g, c ≠ ' ') →
    (sepJoin gs).filter (fun c => c ≠ ' ') = gs.flatten
  | [], _ => rfl
  | [g], hg => by
    rw [sepJoin]
    simp only [List.flatten_cons, List.flatten_nil, List.append_nil]
    exact filter_nospace_eq_self (hg g (by simp))
  | g :: g2 :: gs, hg => by
    rw [show sepJoin (g :: g2 :: gs) = g ++ (' ' :: sepJoin (g2 :: gs)) from rfl]
    rw [List.filter_append]
    have h1 : (' ' :: sepJoin (g2 :: gs)).filter (fun c => c ≠ ' ') =
        (sepJoin (g2 :: gs)).filter (fun c => c ≠ ' ') := by
      simp
    rw [h1, filter_nospace_eq_self (hg g (by simp)),
      sepJoin_filter (g2 :: gs) (fun g3 hg3 => hg g3 (List.mem_cons_of_mem _ hg3))]
    simp

theorem removeSpaces_mk (l : List Char) :
    removeSpaces (String.mk l) = String.mk (l.filter (fun c => c ≠ ' ')) := rfl

theorem removeSpaces_bytesHexSepU (bs : List Nat) :
    removeSpaces (bytesHexSepU bs) = bytesHexU bs := by
  unfold bytesHexSepU bytesHexU
  rw [removeSpaces_mk]
  congr 1
  exact sepJoin_filter (bs.map byteHexChars) (by
    intro g hg c hc
    simp only [List.mem_map] at hg
    obtain ⟨b, _, rfl⟩ := hg
    exact mem_upperHex_ne_space (byteHexChars_mem b c hc))

theorem removeSpaces_dataStr (m : CanMsg) :
    removeSpaces (dataStr m) =
      (if m.is_remote_frame then "N/A"
       else if m.is_error_frame then "ErrorData:" ++ bytesHexU m.data
       else bytesHexU m.data) := by
  unfold dataStr
  by_cases hr : m.is_remote_frame = true
  · rw [if_pos hr, if_pos hr]
    decide
  · rw [if_neg hr, if_neg hr]
    by_cases he : m.is_error_frame = true
    · rw [if_pos he, if_pos he]
      have key : (("Error Data: " ++ bytesHexU m.data).data).filter (fun c => c ≠ ' ')
          = "ErrorData:".data ++ (bytesHexU m.data).data := by
        rw [show ("Error Data: " ++ bytesHexU m.data).data
            = "Error Data: ".data ++ (bytesHexU m.data).data from rfl]
        rw [List.filter_append]
        rw [filter_nospace_eq_self
          (fun c hc => mem_upperHex_ne_space (bytesHexU_mem m.data c hc))]
        congr 1
      show String.mk ((("Error Data: " ++ bytesHexU m.data).data).filter (fun c => c ≠ ' '))
          = "ErrorData:" ++ bytesHexU m.data
      rw [key]
      rfl
    · rw [if_neg he, if_neg he]
      by_cases hf : m.is_fd = true
      · rw [if_pos hf]
        exact removeSpaces_bytesHexSepU m.data
      · rw [if_neg hf]
        exact removeSpaces_bytesHexSepU m.data

/-! ## Step lemmas for `handle_message` -/

theorem handle_message_base {st : AppState} {m : CanMsg} {st' : AppState}
    (h : handle_message st m = some st') :
    st'.message_counter = st.message_counter + 1 ∧
    st'.is_logging = st.is_logging ∧
    st'.has_writer = st.has_writer ∧
    st'.log_open = st.log_open ∧
    st'.is_connected = st.is_connected ∧
    st'.has_worker = st.has_worker ∧
    st'.has_thread = st.has_thread ∧
    st'.worker_running = st.worker_running ∧
    st'.thread_running = st.thread_running ∧
    st'.timer_active = st.timer_active ∧
    st'.settings_interface = st.settings_interface ∧
    st'.settings_channel = st.settings_channel ∧
    st'.settings_bitrate = st.settings_bitrate ∧
    st'.log_path = st.log_path ∧
    st'.status_log = st.status_log ∧
    st'.console_log = st.console_log ∧
    st'.table = st.table ++ [displayRow (st.message_counter + 1) st.settings_channel m] ∧
    st'.disk = (if st.is_logging && st.has_writer
                then st.disk ++ [logRow (st.message_counter + 1) st.settings_channel m]
                else st.disk) := by
  simp only [handle_message] at h
  by_cases hp : plotCond m = true
  · rw [if_pos hp] at h
    rcases hdata : m.data with _ | ⟨b, rest⟩
    · rw [hdata] at h
      simp at h
    · rw [hdata] at h
      simp only [Option.some.injEq] at h
      subst h
      refine ⟨rfl, rfl, rfl, rfl, rfl, rfl, rfl, rfl, rfl, rfl, rfl, rfl, rfl, rfl,
        rfl, rfl, rfl, rfl⟩
  · rw [if_neg hp] at h
    simp only [Option.some.injEq] at h
    subst h
    refine ⟨rfl, rfl, rfl, rfl, rfl, rfl, rfl, rfl, rfl, rfl, rfl, rfl, rfl, rfl,
      rfl, rfl, rfl, rfl⟩

theorem handle_message_plot_pos {st : AppState} {m : CanMsg} {st' : AppState}
    (h : handle_message st m = some st') (hp : plotCond m = true) :
    m.data ≠ [] ∧
    st'.plot_x PLOT_TARGET_ID =
      some (plotPush ((st.plot_x PLOT_TARGET_ID).getD [])
        ((st.plot_y PLOT_TARGET_ID).getD [])
        (st.message_counter + 1) (m.data.headD 0)).1 ∧
    st'.plot_y PLOT_TARGET_ID =
      some (plotPush ((st.plot_x PLOT_TARGET_ID).getD [])
        ((st.plot_y PLOT_TARGET_ID).getD [])
        (st.message_counter + 1) (m.data.headD 0)).2 ∧
    ∀ id, id ≠ PLOT_TARGET_ID → st'.plot_x id = st.plot_x id ∧ st'.plot_y id = st.plot_y id := by
  simp only [handle_message] at h
  rw [if_pos hp] at h
  rcases hdata : m.data with _ | ⟨b, rest⟩
  · rw [hdata] at h
    simp at h
  · rw [hdata] at h
    simp only [Option.some.injEq] at h
    subst h
    refine ⟨by simp [hdata], ?_, ?_, ?_⟩
    · simp [hdata, Function.update_same]
    · simp [hdata, Function.update_same]
    · intro id hid
      constructor
      · simp [Function.update_noteq hid]
      · simp [Function.update_noteq hid]

theorem handle_message_plot_neg {st : AppState} {m : CanMsg} {st' : AppState}
    (h : handle_message st m = some st') (hp : plotCond m = false) :
    st'.plot_x = st.plot_x ∧ st'.plot_y = st.plot_y := by
  simp only [handle_message] at h
  rw [if_neg (by simp [hp])] at h
  simp only [Option.some.injEq] at h
  subst h
  exact ⟨rfl, rfl⟩

theorem processAll_spec : ∀ (ms : List CanMsg) (st st' : AppState),
    processAll st ms = some st' →
    st'.message_counter = st.message_counter + ms.length ∧
    st'.is_logging = st.is_logging ∧
    st'.has_writer = st.has_writer ∧
    st'.log_open = st.log_open ∧
    st'.settings_channel = st.settings_channel ∧
    st'.disk = (if st.is_logging && st.has_writer
                then st.disk ++ logRowsFrom st.message_counter st.settings_channel ms
                else st.disk) ∧
    ((st'.plot_x PLOT_TARGET_ID).getD [], (st'.plot_y PLOT_TARGET_ID).getD []) =
      pairFold ((st.plot_x PLOT_TARGET_ID).getD [], (st.plot_y PLOT_TARGET_ID).getD [])
        (targetSamples st.message_counter ms) ∧
    (∀ id, id ≠ PLOT_TARGET_ID → st'.plot_x id = st.plot_x id ∧ st'.plot_y id = st.plot_y id)
  | [], st, st', h => by
    simp only [processAll, Option.some.injEq] at h
    subst h
    simp [logRowsFrom, targetSamples, pairFold]
  | m :: ms, st, st', h => by
    simp only [processAll] at h
    rcases h1 : handle_message st m with _ | st1
    · rw [h1] at h
      simp at h
    · rw [h1] at h
      obtain ⟨hc, hlog, hwr, hlo, hch, hdisk, hplot, hother⟩ := processAll_spec ms st1 st' h
      obtain ⟨bc, blog, bwr, blo, _bconn, _bhw, _bht, _bwrun, _btrun, _btim, _bsif,
        bch, _bsbr, _blp, _bst, _bcl, _btab, bdisk⟩ := handle_message_base h1
      refine ⟨?_, ?_, ?_, ?_, ?_, ?_, ?_, ?_⟩
      · rw [hc, bc]
        simp only [List.length_cons]
        omega
      · rw [hlog, blog]
      · rw [hwr, bwr]
      · rw [hlo, blo]
      · rw [hch, bch]
      · rw [hdisk, blog, bwr, bdisk, bc, bch]
        by_cases hlw : (st.is_logging && st.has_writer) = true
        · simp only [hlw, if_true]
          rw [List.append_assoc]
          rfl
        · simp only [Bool.not_eq_true] at hlw
          simp [hlw]
      · by_cases hp : plotCond m = true
        · obtain ⟨_, hx1, hy1, _⟩ := handle_message_plot_pos h1 hp
          have hgx : (st1.plot_x PLOT_TARGET_ID).getD []
              = (plotPush ((st.plot_x PLOT_TARGET_ID).getD [])
                  ((st.plot_y PLOT_TARGET_ID).getD [])
                  (st.message_counter + 1) (m.data.headD 0)).1 := by
            rw [hx1]
            rfl
          have hgy : (st1.plot_y PLOT_TARGET_ID).getD []
              = (plotPush ((st.plot_x PLOT_TARGET_ID).getD [])
                  ((st.plot_y PLOT_TARGET_ID).getD [])
                  (st.message_counter + 1) (m.data.headD 0)).2 := by
            rw [hy1]
            rfl
          rw [hplot, hgx, hgy, bc]
          rw [show targetSamples st.message_counter (m :: ms)
              = (st.message_counter + 1, m.data.headD 0)
                :: targetSamples (st.message_counter + 1) ms by
            rw [targetSamples, if_pos hp]]
          rfl
        · have hp2 : plotCond m = false := by simpa using hp
          obtain ⟨hx1, hy1⟩ := handle_message_plot_neg h1 hp2
          rw [hplot, hx1, hy1, bc]
          rw [show targetSamples st.message_counter (m :: ms)
              = targetSamples (st.message_counter + 1) ms by
            rw [targetSamples, if_neg (by simp [hp2])]]
      · intro id hid
        obtain ⟨ho1, ho2⟩ := hother id hid
        by_cases hp : plotCond m = true
        · obtain ⟨_, _, _, hoth⟩ := handle_message_plot_pos h1 hp
          obtain ⟨hx, hy⟩ := hoth id hid
          exact ⟨ho1.trans hx, ho2.trans hy⟩
        · have hp2 : plotCond m = false := by simpa using hp
          obtain ⟨hx1, hy1⟩ := handle_message_plot_neg h1 hp2
          rw [ho1, ho2, hx1, hy1]
          exact ⟨rfl, rfl⟩

/-! ## Projection lemmas for the lifecycle functions -/

theorem stop_logging_is_connected (st : AppState) :
    (stop_logging st).is_connected = st.is_connected := by
  simp only [stop_logging, update_connection_status, pushStatus, pushConsole, currentMessage]
  split_ifs <;> rfl

theorem stop_logging_has_thread (st : AppState) :
    (stop_logging st).has_thread = st.has_thread := by
  simp only [stop_logging, update_connection_status, pushStatus, pushConsole, currentMessage]
  split_ifs <;> rfl

theorem stop_logging_thread_running (st : AppState) :
    (stop_logging st).thread_running = st.thread_running := by
  simp only [stop_logging, update_connection_status, pushStatus, pushConsole, currentMessage]
  split_ifs <;> rfl

theorem stop_logging_message_counter (st : AppState) :
    (stop_logging st).message_counter = st.message_counter := by
  simp only [stop_logging, update_connection_status, pushStatus, pushConsole, currentMessage]
  split_ifs <;> rfl

theorem stop_logging_disk (st : AppState) :
    (stop_logging st).disk = st.disk := by
  simp only [stop_logging, update_connection_status, pushStatus, pushConsole, currentMessage]
  split_ifs <;> rfl

theorem stop_logging_is_logging (st : AppState) :
    (stop_logging st).is_logging = false := by
  simp only [stop_logging, update_connection_status, pushStatus, pushConsole, currentMessage]
  split_ifs <;> simp_all

theorem stop_logging_log_open {st : AppState} (h : st.is_logging = true) :
    (stop_logging st).log_open = false := by
  simp only [stop_logging, update_connection_status, pushStatus, pushConsole, currentMessage]
  split_ifs <;> simp_all

theorem stop_logging_status_mono (st : AppState) {x : String × Nat}
    (h : x ∈ st.status_log) : x ∈ (stop_logging st).status_log := by
  simp only [stop_logging, update_connection_status, pushStatus, pushConsole, currentMessage]
  split_ifs <;> simp_all

theorem on_thread_finished_is_connected (st : AppState) :
    (on_thread_finished st).is_connected = false := by
  simp only [on_thread_finished, update_connection_status, pushStatus, pushConsole]
  split_ifs <;> simp_all

theorem on_thread_finished_message_counter (st : AppState) :
    (on_thread_finished st).message_counter = st.message_counter := by
  simp only [on_thread_finished, update_connection_status, pushStatus, pushConsole]
  split_ifs <;> rfl

theorem connect_can_message_counter (st : AppState) :
    (connect_can st).message_counter = st.message_counter := by
  simp only [connect_can, update_connection_status, pushStatus, pushConsole]
  split_ifs <;> rfl

theorem disconnect_can_early {st : AppState} {g : Bool}
    (hc : (!st.is_connected || !st.has_thread || !st.thread_running) = true) :
    (disconnect_can st g).is_connected = false ∧
    (disconnect_can st g).message_counter = st.message_counter := by
  simp only [disconnect_can, update_connection_status, pushStatus, pushConsole]
  rw [if_pos hc]
  split_ifs <;> simp_all

theorem disconnect_can_main {st : AppState} {g : Bool}
    (hc : (!st.is_connected || !st.has_thread || !st.thread_running) = false) :
    (disconnect_can st g).is_connected = st.is_connected ∧
    (disconnect_can st g).has_thread = st.has_thread ∧
    (disconnect_can st g).thread_running = false ∧
    (disconnect_can st g).message_counter = st.message_counter := by
  simp only [disconnect_can, pushStatus, pushConsole]
  rw [if_neg (by simp [hc])]
  split_ifs <;>
    simp_all [stop_logging_is_connected, stop_logging_has_thread,
      stop_logging_thread_running, stop_logging_message_counter]

theorem disconnect_can_message_counter (st : AppState) (g : Bool) :
    (disconnect_can st g).message_counter = st.message_counter := by
  by_cases hc : (!st.is_connected || !st.has_thread || !st.thread_running) = true
  · exact (disconnect_can_early (g := g) hc).2
  · exact (disconnect_can_main (g := g) (by simpa using hc)).2.2.2

theorem settle_disconnect_is_connected (st : AppState) (g : Bool) :
    (settleThreadFinish (disconnect_can st g)).is_connected = false := by
  by_cases hc : (!st.is_connected || !st.has_thread || !st.thread_running) = true
  · obtain ⟨h1, _⟩ := disconnect_can_early (g := g) hc
    unfold settleThreadFinish
    by_cases hs : ((disconnect_can st g).has_thread
        && !(disconnect_can st g).thread_running) = true
    · rw [if_pos hs]
      exact on_thread_finished_is_connected _
    · rw [if_neg hs]
      exact h1
  · have hc2 : (!st.is_connected || !st.has_thread || !st.thread_running) = false := by
      simpa using hc
    obtain ⟨_, h2, h3, _⟩ := disconnect_can_main (g := g) hc2
    have hflags : (st.is_connected = true ∧ st.has_thread = true)
        ∧ st.thread_running = true := by
      simpa using hc2
    unfold settleThreadFinish
    rw [if_pos (by rw [h2, h3, hflags.1.2]; rfl)]
    exact on_thread_finished_is_connected _

theorem handle_can_error_settles {st : AppState} {e : String} {g : Bool}
    (hm : (strContainsSub e "No such device"
      || strContainsSub e "Cannot find specified device") = true) :
    (settleThreadFinish (handle_can_error st e g)).is_connected = false := by
  simp only [handle_can_error]
  rw [if_pos hm]
  exact settle_disconnect_is_connected _ g

theorem handle_can_error_nonfatal {st : AppState} {e : String} {g : Bool}
    (h1 : strContainsSub e "No such device" = false)
    (h2 : strContainsSub e "Cannot find specified device" = false) :
    handle_can_error st e g =
      { st with console_log := st.console_log ++ ["CAN Error reported: " ++ e],
                status_log := st.status_log ++ [("Error: " ++ e, 5000)] } := by
  simp only [handle_can_error, pushStatus, pushConsole]
  rw [if_neg (by simp [h1, h2])]

theorem handle_can_error_message_counter (st : AppState) (e : String) (g : Bool) :
    (handle_can_error st e g).message_counter = st.message_counter := by
  simp only [handle_can_error, pushStatus, pushConsole]
  split_ifs
  · rw [disconnect_can_message_counter]
  · rfl

theorem start_logging_message_counter (st : AppState) (p : String) (o : StartLogOutcome) :
    (start_logging st p o).message_counter = st.message_counter := by
  simp only [start_logging, pushStatus, pushConsole]
  split_ifs <;> cases o <;> rfl

theorem runEvents_counter : ∀ (evs : List AppEvent) (st st' : AppState),
    runEvents st evs = some st' →
    st'.message_counter = st.message_counter + countFrames evs
  | [], st, st', h => by
    simp only [runEvents, Option.some.injEq] at h
    subst h
    simp [countFrames]
  | ev :: evs, st, st', h => by
    simp only [runEvents] at h
    rcases h1 : appStep st ev with _ | st1
    · rw [h1] at h
      simp at h
    · rw [h1] at h
      have ih := runEvents_counter evs st1 st' h
      cases ev with
      | frame m =>
        have hm : handle_message st m = some st1 := h1
        rw [ih, (handle_message_base hm).1]
        simp only [countFrames]
        omega
      | doConnect =>
        simp only [appStep, Option.some.injEq] at h1
        subst h1
        rw [ih, connect_can_message_counter]
        simp only [countFrames]
      | doDisconnect g =>
        simp only [appStep, Option.some.injEq] at h1
        subst h1
        rw [ih, disconnect_can_message_counter]
        simp only [countFrames]
      | threadFinished =>
        simp only [appStep, Option.some.injEq] at h1
        subst h1
        rw [ih, on_thread_finished_message_counter]
        simp only [countFrames]
      | canError e g =>
        simp only [appStep, Option.some.injEq] at h1
        subst h1
        rw [ih, handle_can_error_message_counter]
        simp only [countFrames]
      | logStart p o =>
        simp only [appStep, Option.some.injEq] at h1
        subst h1
        rw [ih, start_logging_message_counter]
        simp only [countFrames]
      | logStop =>
        simp only [appStep, Option.some.injEq] at h1
        subst h1
        rw [ih, stop_logging_message_counter]
        simp only [countFrames]

theorem disconnect_can_status_mono (st : AppState) (g : Bool) {x : String × Nat}
    (h : x ∈ st.status_log) : x ∈ (disconnect_can st g).status_log := by
  simp only [disconnect_can, update_connection_status, pushStatus, pushConsole]
  split_ifs <;>
    first
      | (apply stop_logging_status_mono; simp [h])
      | simp [h]

theorem stop_logging_status_of_fields {st1 st2 : AppState}
    (h1 : st1.is_logging = st2.is_logging) (h2 : st1.log_open = st2.log_open)
    (h3 : st1.is_connected = st2.is_connected) (h4 : st1.status_log = st2.status_log)
    (h5 : st1.log_path = st2.log_path) (h6 : st1.settings_channel = st2.settings_channel)
    (h7 : st1.settings_bitrate = st2.settings_bitrate) :
    (stop_logging st1).status_log = (stop_logging st2).status_log := by
  simp only [stop_logging, update_connection_status, pushStatus, pushConsole, currentMessage]
  rw [h1, h2, h3, h4, h5, h6, h7]
  split_ifs <;> first | rfl | exact h4

theorem disconnect_status_indep_graceful (st : AppState) :
    (disconnect_can st false).status_log = (disconnect_can st true).status_log := by
  unfold disconnect_can
  by_cases hc : (!st.is_connected || !st.has_thread || !st.thread_running) = true
  · rw [if_pos hc, if_pos hc]
  · rw [if_neg hc, if_neg hc]
    simp only [pushStatus, pushConsole]
    by_cases hw : st.has_worker = true <;> simp only [hw] <;>
      exact stop_logging_status_of_fields rfl rfl rfl rfl rfl rfl rfl

/-! ## Claim theorems -/

/-- **C1.** For every arbitration id, the plot series (the paired lists
`plot_data_x[id]` / `plot_data_y[id]`) never holds more than
`MAX_PLOT_POINTS = 200` samples after any sequence of frames has been
processed; the plotted id's series is exactly the last 200 of the
samples generated in insertion order (appending beyond capacity evicts
the oldest front pair), so after inserting capacity+1 samples the series
equals the 200 samples that followed the first one: the first inserted
sample is absent, the most recently inserted sample is present, and the
remaining samples stay in insertion order. -/
theorem C1_plot_series_bounded (ms : List CanMsg) (st' : AppState)
    (h : processAll initState ms = some st') :
    (∀ id, ((st'.plot_x id).getD []).length ≤ MAX_PLOT_POINTS ∧
           ((st'.plot_y id).getD []).length ≤ MAX_PLOT_POINTS) ∧
    ((st'.plot_x PLOT_TARGET_ID).getD []).zip ((st'.plot_y PLOT_TARGET_ID).getD [])
      = lastN MAX_PLOT_POINTS (targetSamples 0 ms) ∧
    (∀ p ps, targetSamples 0 ms = p :: ps → ps.length = MAX_PLOT_POINTS →
      ((st'.plot_x PLOT_TARGET_ID).getD []).zip ((st'.plot_y PLOT_TARGET_ID).getD []) = ps
        ∧ p ∉ ps) := by
  obtain ⟨_, _, _, _, _, _, hplot, hother⟩ := processAll_spec ms initState st' h
  rw [show ((initState.plot_x PLOT_TARGET_ID).getD [] : List Nat) = [] from rfl,
      show ((initState.plot_y PLOT_TARGET_ID).getD [] : List Nat) = [] from rfl,
      show initState.message_counter = 0 from rfl] at hplot
  rw [pairFold_char _ [] [] rfl (by norm_num [MAX_PLOT_POINTS])] at hplot
  simp only [List.nil_append] at hplot
  have hx : (st'.plot_x PLOT_TARGET_ID).getD []
      = lastN MAX_PLOT_POINTS ((targetSamples 0 ms).map Prod.fst) := congrArg Prod.fst hplot
  have hy : (st'.plot_y PLOT_TARGET_ID).getD []
      = lastN MAX_PLOT_POINTS ((targetSamples 0 ms).map Prod.snd) := congrArg Prod.snd hplot
  have hzip : ((st'.plot_x PLOT_TARGET_ID).getD []).zip ((st'.plot_y PLOT_TARGET_ID).getD [])
      = lastN MAX_PLOT_POINTS (targetSamples 0 ms) := by
    rw [hx, hy, lastN_zip (by simp), zip_map_fst_snd_eq]
  refine ⟨?_, hzip, ?_⟩
  · intro id
    by_cases hid : id = PLOT_TARGET_ID
    · subst hid
      rw [hx, hy]
      exact ⟨lastN_length_le _ _, lastN_length_le _ _⟩
    · obtain ⟨h1, h2⟩ := hother id hid
      rw [h1, h2]
      simp [initState]
  · intro p ps hps hlen
    constructor
    · rw [hzip, hps]
      unfold lastN
      rw [show (p :: ps).length - MAX_PLOT_POINTS = 1 by simp [hlen]]
      rfl
    · exact targetSamples_head_not_mem ms 0 p ps hps

/-- Instantiates the C1 theorem on one concrete routed frame. -/
theorem C1_plot_series_bounded_witness :
    processAll initState [mDataFrame] = some c1WitState ∧
    ((c1WitState.plot_x PLOT_TARGET_ID).getD []).length ≤ MAX_PLOT_POINTS := by
  have hsome : processAll initState [mDataFrame] = some c1WitState := rfl
  exact ⟨hsome, ((C1_plot_series_bounded [mDataFrame] c1WitState hsome).1 PLOT_TARGET_ID).1⟩

/-- **C2.** An adapter error whose message contains a device-absent
marker (`"No such device"` or `"Cannot find specified device"`, the
classification used by `handle_can_error`) auto-invokes
`disconnect_can`, and once the pending thread-finished signal is
delivered the session is Disconnected — no separate explicit disconnect
call occurs; any other error message only pushes the status-bar error
entry and leaves the connection state (connected flag, thread and
worker run state, logging flag) unchanged. -/
theorem C2_device_absent_auto_disconnect (st : AppState) (e : String) (g : Bool) :
    ((strContainsSub e "No such device" = true ∨
      strContainsSub e "Cannot find specified device" = true) →
      (settleThreadFinish (handle_can_error st e g)).is_connected = false) ∧
    (strContainsSub e "No such device" = false →
     strContainsSub e "Cannot find specified device" = false →
      (handle_can_error st e g).is_connected = st.is_connected ∧
      (handle_can_error st e g).thread_running = st.thread_running ∧
      (handle_can_error st e g).worker_running = st.worker_running ∧
      (handle_can_error st e g).is_logging = st.is_logging ∧
      (handle_can_error st e g).status_log = st.status_log ++ [("Error: " ++ e, 5000)]) := by
  constructor
  · intro hm
    apply handle_can_error_settles
    rcases hm with hm | hm <;> simp [hm]
  · intro h1 h2
    rw [handle_can_error_nonfatal h1 h2]
    exact ⟨rfl, rfl, rfl, rfl, rfl⟩

/-- Instantiates the C2 theorem on a concrete device-absent error in a
connected session. -/
theorem C2_device_absent_auto_disconnect_witness :
    strContainsSub "[Errno 19] No such device" "No such device" = true ∧
    (settleThreadFinish
      (handle_can_error connSt "[Errno 19] No such device" true)).is_connected = false := by
  refine ⟨by decide, ?_⟩
  exact (C2_device_absent_auto_disconnect connSt "[Errno 19] No such device" true).1
    (Or.inl (by decide))

/-- **C3.** `CanWorker.send_message` while Disconnected (stop flag
cleared, or no open bus) returns `False` without any adapter call and
without emitting a `SendError` — the NotConnected failure; while
Connected (running worker with an open bus) each send request invokes
the Bus Adapter's `send` exactly once (also when that call fails); and
the GUI-side `prepare_send_message` emits nothing while the window is
not connected, showing the "Not Connected" warning instead. -/
theorem C3_send_guard (w : WorkerState) (m : CanMsg) (sendErr : Option String) :
    ((w.is_running = false ∨ w.bus = none) →
      CanWorker.send_message w m sendErr = (w, false, [])) ∧
    (∀ b, w.bus = some b → w.is_running = true →
      (CanWorker.send_message w m sendErr).1.bus
        = some { send_calls := b.send_calls ++ [m] } ∧
      (CanWorker.send_message w m sendErr).2.1
        = (if sendErr.isSome then false else true)) ∧
    (∀ st parsed, st.is_connected = false →
      prepare_send_message st parsed = PrepareResult.notConnectedWarning) := by
  refine ⟨?_, ?_, ?_⟩
  · intro hd
    rcases hb : w.bus with _ | b
    · simp only [CanWorker.send_message, hb]
    · rcases hd with hd | hd
      · simp only [CanWorker.send_message, hb, hd]
        rfl
      · rw [hd] at hb
        cases hb
  · intro b hb hr
    rcases sendErr with _ | e <;>
      simp only [CanWorker.send_message, hb, hr, if_true] <;> simp
  · intro st parsed hconn
    simp [prepare_send_message, hconn]

/-- Instantiates the C3 theorem on the disconnected worker. -/
theorem C3_send_guard_witness :
    CanWorker.send_message wDisc mDataFrame none = (wDisc, false, []) ∧
    (CanWorker.send_message wConn mDataFrame none).1.bus
      = some { send_calls := [mDataFrame] } := by
  constructor
  · exact (C3_send_guard wDisc mDataFrame none).1 (Or.inl rfl)
  · exact (((C3_send_guard wConn mDataFrame none).2.1 { send_calls := [] } rfl rfl).1).trans
      (by rfl)

/-- **C6.** Every completed execution of `CanWorker.run` — normal stop,
adapter error during open, adapter error during read, or any other
exception — releases the Bus Adapter (`self._bus.shutdown()` in the
`finally` block) whenever a bus handle was acquired, and leaves the stop
flag cleared.  (A worker thread killed by forced termination never
completes its run-loop execution, so every completed execution is
covered by the four exit causes.) -/
theorem C6_run_releases_bus (exit : RunExit)
    (h : (CanWorker.run exit).bus_acquired = true) :
    (CanWorker.run exit).shutdown_called = true ∧
    (CanWorker.run exit).is_running_after = false := by
  cases exit <;> simp_all [CanWorker.run]

/-- Instantiates the C6 theorem on the normal-stop exit. -/
theorem C6_run_releases_bus_witness :
    (CanWorker.run RunExit.normalStop).bus_acquired = true ∧
    (CanWorker.run RunExit.normalStop).shutdown_called = true :=
  ⟨rfl, (C6_run_releases_bus RunExit.normalStop rfl).1⟩

/-- **C4.** Opening a log (successfully), routing `N` frames while
logging stays active, and then closing the log leaves on disk exactly
the fixed header row (`Timestamp, ID (Hex), ID Type, Msg Type, DLC,
Data (Hex), Count, Bus`) followed by exactly `N` data rows, one per
ingested frame in ingestion order, with no handle left open. -/
theorem C4_log_contents (st : AppState) (path : String) (ms : List CanMsg) (st' : AppState)
    (h0 : st.is_logging = false)
    (h : processAll (start_logging st path StartLogOutcome.ok) ms = some st') :
    (stop_logging st').disk
      = logHeader :: logRowsFrom st.message_counter st.settings_channel ms ∧
    (logRowsFrom st.message_counter st.settings_channel ms).length = ms.length ∧
    (stop_logging st').log_open = false ∧
    (stop_logging st').is_logging = false := by
  have hS : (start_logging st path StartLogOutcome.ok).is_logging = true ∧
      (start_logging st path StartLogOutcome.ok).has_writer = true ∧
      (start_logging st path StartLogOutcome.ok).disk = [logHeader] ∧
      (start_logging st path StartLogOutcome.ok).message_counter = st.message_counter ∧
      (start_logging st path StartLogOutcome.ok).settings_channel = st.settings_channel := by
    simp [start_logging, h0, pushStatus, pushConsole]
  obtain ⟨hc, hlog, hwr, _, hch, hdisk, _, _⟩ :=
    processAll_spec ms (start_logging st path StartLogOutcome.ok) st' h
  have hlogT : st'.is_logging = true := by rw [hlog, hS.1]
  refine ⟨?_, logRowsFrom_length ms _ _, stop_logging_log_open hlogT,
    stop_logging_is_logging st'⟩
  rw [stop_logging_disk, hdisk, hS.1, hS.2.1, hS.2.2.1, hS.2.2.2.1, hS.2.2.2.2]
  rfl

/-- Instantiates the C4 theorem: header plus two rows after logging two
frames. -/
theorem C4_log_contents_witness :
    processAll (start_logging initState "run.csv" StartLogOutcome.ok)
      [mDataFrame, mRemoteFrame] = some c4WitState ∧
    (stop_logging c4WitState).disk
      = logHeader :: logRowsFrom 0 "can0" [mDataFrame, mRemoteFrame] ∧
    (stop_logging c4WitState).log_open = false := by
  have hsome : processAll (start_logging initState "run.csv" StartLogOutcome.ok)
      [mDataFrame, mRemoteFrame] = some c4WitState := rfl
  have h := C4_log_contents initState "run.csv" [mDataFrame, mRemoteFrame] c4WitState rfl hsome
  exact ⟨hsome, h.1.trans (by rfl), h.2.2.1⟩

/-- **C5 (amended).** For every frame successfully processed by
`handle_message`: the sequence counter is incremented first (display,
log and plot all use the incremented value), exactly one display row is
appended, a log record is written exactly when the logging flag is set
and a CSV writer is retained, and the pair
`(sequence_counter, data byte 0)` is appended to the plot series of
`PLOT_TARGET_ID` if and only if the frame's `arbitration_id` matches the
subscription AND the frame is **not a remote frame** AND `dlc > 0`
(`plotCond`); frames failing that condition leave both plot dictionaries
unchanged.  The original claim's stronger condition "is a data frame" is
refuted by the accompanying counterexample: error frames also pass the
source's `not msg.is_remote_frame` test. -/
theorem C5_routing_order (st : AppState) (m : CanMsg) (st' : AppState)
    (h : handle_message st m = some st') :
    st'.message_counter = st.message_counter + 1 ∧
    st'.table = st.table ++ [displayRow (st.message_counter + 1) st.settings_channel m] ∧
    st'.disk = (if st.is_logging && st.has_writer
                then st.disk ++ [logRow (st.message_counter + 1) st.settings_channel m]
                else st.disk) ∧
    (plotCond m = true →
      st'.plot_x PLOT_TARGET_ID =
        some (plotPush ((st.plot_x PLOT_TARGET_ID).getD [])
          ((st.plot_y PLOT_TARGET_ID).getD [])
          (st.message_counter + 1) (m.data.headD 0)).1 ∧
      st'.plot_y PLOT_TARGET_ID =
        some (plotPush ((st.plot_x PLOT_TARGET_ID).getD [])
          ((st.plot_y PLOT_TARGET_ID).getD [])
          (st.message_counter + 1) (m.data.headD 0)).2) ∧
    (plotCond m = false → st'.plot_x = st.plot_x ∧ st'.plot_y = st.plot_y) := by
  obtain ⟨bc, _, _, _, _, _, _, _, _, _, _, _, _, _, _, _, btab, bdisk⟩ :=
    handle_message_base h
  refine ⟨bc, btab, bdisk, ?_, handle_message_plot_neg h⟩
  intro hp
  obtain ⟨_, hx, hy, _⟩ := handle_message_plot_pos h hp
  exact ⟨hx, hy⟩

/-- Instantiates the C5 theorem on one concrete routed frame. -/
theorem C5_routing_order_witness :
    handle_message connSt mDataFrame = some c5WitState ∧
    c5WitState.message_counter = connSt.message_counter + 1 := by
  have hsome : handle_message connSt mDataFrame = some c5WitState := rfl
  exact ⟨hsome, (C5_routing_order connSt mDataFrame c5WitState hsome).1⟩

/-- Counterexample to C5 as stated: `mErrPlotFrame` is an error frame —
not a data frame (`msg_type` is `"Error"`) — on the plotted identifier
with `dlc = 1`, yet processing it appends `(1, 5)` to the plot series:
the source's guard (line 483) only excludes remote frames, so "the
frame is a data frame" is not among the source's conditions and such
frames do not leave the plot series unchanged. -/
theorem C5_routing_order_cex :
    mErrPlotFrame.is_error_frame = true ∧
    msgTypeStr mErrPlotFrame = "Error" ∧
    initState.plot_x PLOT_TARGET_ID = none ∧
    ((handle_message initState mErrPlotFrame).map
      (fun s => (s.plot_x PLOT_TARGET_ID, s.plot_y PLOT_TARGET_ID)))
      = some (some [1], some [5]) := by
  exact ⟨rfl, rfl, rfl, rfl⟩

/-- **C7 (amended).** In every log row the `ID (Hex)` field is the
frame id in upper-case hex, and the `Data (Hex)` field is: the frame's
data bytes as contiguous upper-case hex with no separators for data and
FD frames; the literal `"N/A"` for remote frames; and the prefix
`"ErrorData:"` followed by the contiguous upper-case hex for error
frames.  The original claim — that the field contains the data bytes as
hex for every ingested frame including remote and error frames — fails
on the remote and error cases (see the accompanying counterexample). -/
theorem C7_log_hex_fields (m : CanMsg) (counter : Nat) (ch : String) :
    (logRow counter ch m).get? 1 = some (pyHexUpper m.arbitration_id) ∧
    isUpperHexStr (pyHexUpper m.arbitration_id) = true ∧
    isUpperHexStr (bytesHexU m.data) = true ∧
    (logRow counter ch m).get? 5 =
      some (if m.is_remote_frame then "N/A"
            else if m.is_error_frame then "ErrorData:" ++ bytesHexU m.data
            else bytesHexU m.data) := by
  refine ⟨rfl, pyHexUpper_upper _, bytesHexU_upper _, ?_⟩
  show some (removeSpaces (dataStr m)) = _
  rw [removeSpaces_dataStr]

/-- Counterexample to C7 as stated: the logged data field of a remote
frame is the literal `"N/A"`, not the (empty) hex rendering of its data,
and the logged data field of an error frame carries the extra prefix
`"ErrorData:"` before the hex digits. -/
theorem C7_log_hex_cex :
    removeSpaces (dataStr mRemoteFrame) = "N/A" ∧
    bytesHexU mRemoteFrame.data = "" ∧
    removeSpaces (dataStr mRemoteFrame) ≠ bytesHexU mRemoteFrame.data ∧
    removeSpaces (dataStr mErrLogFrame) = "ErrorData:AB" ∧
    bytesHexU mErrLogFrame.data = "AB" ∧
    removeSpaces (dataStr mErrLogFrame) ≠ bytesHexU mErrLogFrame.data := by
  refine ⟨rfl, rfl, by decide, rfl, rfl, by decide⟩

/-- **C8 (amended).** Every error delivered to `handle_can_error`
reaches the status bar with the fixed bounded display duration of
5000 ms — including adapter-open (connect-class) errors, which therefore
do NOT remain visible without a timeout — and the shutdown-timeout
condition never reaches the status surface: a forced termination leaves
the status-bar history identical to a graceful disconnect (the warning
is only printed to the console).  The original claim's exemption of
`ConnectError` and `ShutdownTimeout` is refuted by the accompanying
counterexample. -/
theorem C8_status_surface (st : AppState) (e : String) (g : Bool) :
    ("Error: " ++ e, 5000) ∈ (handle_can_error st e g).status_log ∧
    (disconnect_can st false).status_log = (disconnect_can st true).status_log := by
  refine ⟨?_, disconnect_status_indep_graceful st⟩
  simp only [handle_can_error, pushStatus, pushConsole]
  split_ifs
  · apply disconnect_can_status_mono
    simp
  · simp

/-- Counterexample to C8 as stated: the connect-class adapter error
(`can.CanError` raised while opening the bus is emitted as
`"CAN Error: ..."` by `CanWorker.run`) is displayed with the bounded
5000 ms timeout, not without a timeout (Qt timeout 0). -/
theorem C8_status_surface_cex :
    (CanWorker.run (RunExit.openError "could not open bus")).errors_emitted
      = ["CAN Error: could not open bus"] ∧
    ((handle_can_error connSt "CAN Error: could not open bus" true).status_log).getLast?
      = some ("Error: CAN Error: could not open bus", 5000) := by
  exact ⟨rfl, by decide⟩

/-- **C9.** A failing `start_logging` attempt (the file cannot be
opened, or writing the header row raises) rolls the logging state fully
back: the logging flag stays `False`, no CSV writer is retained, no open
file handle remains, and no status message is emitted; when the open
itself fails, the state is exactly the one from before the attempt. -/
theorem C9_start_logging_rollback (st : AppState) (path : String) (o : StartLogOutcome)
    (h0 : st.is_logging = false)
    (ho : o = StartLogOutcome.openFails ∨ o = StartLogOutcome.headerWriteFails) :
    (start_logging st path o).is_logging = false ∧
    (start_logging st path o).has_writer = false ∧
    (start_logging st path o).log_open = false ∧
    (start_logging st path o).status_log = st.status_log ∧
    (st.log_open = false → st.has_writer = false →
      start_logging st path StartLogOutcome.openFails = st) := by
  refine ⟨?_, ?_, ?_, ?_, ?_⟩
  · rcases ho with rfl | rfl <;> simp [start_logging, h0]
  · rcases ho with rfl | rfl <;> simp [start_logging, h0]
  · rcases ho with rfl | rfl <;> simp [start_logging, h0]
  · rcases ho with rfl | rfl <;> simp [start_logging, h0]
  · intro hlo hhw
    cases st
    simp_all [start_logging]

/-- Instantiates the C9 theorem on a concrete failed open. -/
theorem C9_start_logging_rollback_witness :
    initState.is_logging = false ∧
    (start_logging initState "run.csv" StartLogOutcome.openFails).is_logging = false ∧
    (start_logging initState "run.csv" StartLogOutcome.openFails).has_writer = false ∧
    start_logging initState "run.csv" StartLogOutcome.openFails = initState := by
  have h := C9_start_logging_rollback initState "run.csv" StartLogOutcome.openFails rfl
    (Or.inl rfl)
  exact ⟨rfl, h.1, h.2.1, h.2.2.2.2 rfl rfl⟩

/-- **C10.** The session-wide sequence counter increases by exactly one
per routed frame and is never reset by `disconnect_can`,
`on_thread_finished` or a reconnect: over any event run from the fresh
window state, the final counter equals the number of frames routed,
across session boundaries. -/
theorem C10_counter_monotone :
    (∀ st g, (disconnect_can st g).message_counter = st.message_counter) ∧
    (∀ st, (on_thread_finished st).message_counter = st.message_counter) ∧
    (∀ st, (connect_can st).message_counter = st.message_counter) ∧
    (∀ st m st', handle_message st m = some st' →
      st'.message_counter = st.message_counter + 1) ∧
    (∀ evs st', runEvents initState evs = some st' →
      st'.message_counter = countFrames evs) := by
  refine ⟨disconnect_can_message_counter, on_thread_finished_message_counter,
    connect_can_message_counter, ?_, ?_⟩
  · intro st m st' h
    exact (handle_message_base h).1
  · intro evs st' h
    have hr := runEvents_counter evs initState st' h
    simpa [initState] using hr

/-- Instantiates the C10 theorem on a two-session run: the counter keeps
counting across disconnect/reconnect. -/
theorem C10_counter_monotone_witness :
    runEvents initState c10WitEvents = some c10WitState ∧
    c10WitState.message_counter = 2 := by
  have hsome : runEvents initState c10WitEvents = some c10WitState := rfl
  have h2 := C10_counter_monotone.2.2.2.2 c10WitEvents c10WitState hsome
  exact ⟨hsome, h2.trans (by rfl)⟩

end PyCANalyzer
